import Mathlib

/-!
Verification of the Sola storm-simulation pipeline (`functions/generate_losses.py`,
`functions/simulation_output.py`, `gcp/bigquery.py`, `main.py`, `storm/storm.py`)
against its natural-language specification.

Python floats holding dollar amounts are embedded as `ℚ`; Python truthiness of a
number is `≠ 0`; Python dicts iterated in insertion order are embedded as
association lists (or, for the fixed geography dictionaries, as functions
`String → ℚ` when only point updates matter).
-/

namespace Sim

/-! ### Aggregation limits (generate_losses.py, lines 100-104) -/

def total_agg_limit : ℚ := 200000000
def state_agg_limit : ℚ := 80000000
def county_agg_limit : ℚ := 30000000
def zip_agg_limit : ℚ := 5000000

/-- The literal safety margin `15000` appearing in the ceiling checks of `run_losses`. -/
def safety_margin : ℚ := 15000

/-! ### The hierarchical dollar dictionaries of `run_losses` -/

/-- One of `exposure_dictionary` / `premium_dictionary` / `loss_dictionary`:
a total plus per-state / per-county / per-zip running totals.  The fixed key
universes of the Python literals are embedded as total functions. -/
structure GeoDict where
  total : ℚ
  state : String → ℚ
  county : String → ℚ
  zip : String → ℚ

/-- One sampled property, as consumed by the exposure-aggregation loop of
`run_losses` (fields `state`, `county`, `zip_code`, `limit` of `curr_prop`). -/
structure Property where
  state : String
  county : String
  zip_code : String
  limit : ℚ

/-- The pre-add ceiling check of `run_losses` (lines 329-332):
`exposure_dictionary['total'] > (total_agg_limit - 15000) or
 exposure_dictionary['state'][curr_prop['state']] > (state_agg_limit - 15000)`.
Note both comparisons are strict. -/
def exposureCeilingHit (d : GeoDict) (st : String) : Bool :=
  decide (d.total > total_agg_limit - safety_margin) ||
  decide (d.state st > state_agg_limit - safety_margin)

/-- The ceiling check as the SPEC words it (section 4.1): skip when
`total ≥ (totalCeiling − safetyMargin)` OR `state[state] ≥ (stateCeiling − safetyMargin)`.
Defined from the spec's words only, to be compared against `exposureCeilingHit`. -/
def specCeilingHit (d : GeoDict) (st : String) : Bool :=
  decide (d.total ≥ total_agg_limit - safety_margin) ||
  decide (d.state st ≥ state_agg_limit - safety_margin)

/-- The four increments performed on `exposure_dictionary` for one property
(generate_losses.py lines 343-346). -/
def addLimit (d : GeoDict) (p : Property) : GeoDict where
  total := d.total + p.limit
  state := Function.update d.state p.state (d.state p.state + p.limit)
  county := Function.update d.county p.county (d.county p.county + p.limit)
  zip := Function.update d.zip p.zip_code (d.zip p.zip_code + p.limit)

/-- One iteration of the inner property loop: check the ceiling, and either
break (`none`) or perform the four increments (`some`). -/
def innerStep (d : GeoDict) (p : Property) : Option GeoDict :=
  if exposureCeilingHit d p.state then none else some (addLimit d p)

/-- The inner `for curr_prop in curr_props` loop of `run_losses` (lines 328-360),
restricted to the exposure dictionary.  Returns the final dictionary together
with a log of `(amount added, exposure total right after that add)` pairs, one
entry per add actually performed. -/
def sampleLoop (d : GeoDict) : List Property → GeoDict × List (ℚ × ℚ)
  | [] => (d, [])
  | p :: rest =>
    if exposureCeilingHit d p.state then (d, [])
    else
      let d1 := addLimit d p
      let r := sampleLoop d1 rest
      (r.1, (p.limit, d1.total) :: r.2)

/-- The outer `for loss_state in states` loop of `run_losses` (lines 310-364):
runs the inner loop on each region's sampled batch, and breaks out of the outer
loop once `exposure_dictionary['total'] > (total_agg_limit - 15000)` (line 362). -/
def regionLoop (d : GeoDict) : List (List Property) → GeoDict × List (ℚ × ℚ)
  | [] => (d, [])
  | props :: rest =>
    let r1 := sampleLoop d props
    if decide (r1.1.total > total_agg_limit - safety_margin) then r1
    else
      let r2 := regionLoop r1.1 rest
      (r2.1, r1.2 ++ r2.2)

/-! ### Storm generation loop (generate_losses.py lines 417-426, storm/storm.py) -/

/-- The `while num_storms <= limit` generation loop of `run_losses` (lines 420-426).
`candidates` is the stream of `storm.generate_polygon()` outcomes: `true` for a
truthy polygon, `false` for the degenerate `False` return (center outside the US,
storm.py lines 68-69).  A degenerate candidate is discarded without touching
`num_storms`; a kept one increments it.  Returns the final `num_storms`. -/
def stormLoop (limit : ℕ) : List Bool → ℕ → ℕ
  | [], n => n
  | c :: rest, n =>
    if n ≤ limit then stormLoop limit rest (if c then n + 1 else n)
    else n

/-! ### Bigquery insert retry (gcp/bigquery.py) -/

def INSERT_ROW_RETRY_MAX_RETRIES : ℕ := 5

/-- The tenacity wrapper on `Bigquery.insert_rows` (lines 124-162):
`prim i` is the error list returned by the physical `client.insert_rows` call on
attempt `i` (0-based); empty = success.  Retries while the result is truthy,
stops after `fuel` attempts, and on exhaustion `retry_error_callback` returns the
last attempt's result instead of raising.  Returns (attempts performed, final result). -/
def retryInsertLoop (prim : ℕ → List String) : ℕ → ℕ → ℕ × List String
  | i, 0 => (i, [])
  | i, fuel + 1 =>
    let errs := prim i
    if errs = [] then (i + 1, [])
    else if fuel = 0 then (i + 1, errs)
    else retryInsertLoop prim (i + 1) fuel

/-- `Bigquery.insert_rows` under its retry decorator, abstracted over the
physical insert primitive. -/
def insert_rows (prim : ℕ → List String) : ℕ × List String :=
  retryInsertLoop prim 0 INSERT_ROW_RETRY_MAX_RETRIES

/-- Mutable state of a `BigqueryInsertStream` (batch of pending rows, running
total of inserted rows, configured batch size).  Rows are abstract (`ℕ`). -/
structure InsertStreamState where
  batch : List ℕ
  total : ℕ
  batch_size : ℕ
  deriving DecidableEq

/-- `BigqueryInsertStream.flush` (lines 239-252): no-op on an empty batch;
otherwise one `Bigquery.insert_rows` call (itself retrying).  Returns the state
afterwards, the number of primitive invocations, and `some errors` when the
typed `BigqueryInsertStream.Errors` exception is raised (in which case the raise
happens before the batch is cleared). -/
def bqFlush (prim : ℕ → List String) (s : InsertStreamState) :
    InsertStreamState × ℕ × Option (List String) :=
  if s.batch = [] then (s, 0, none)
  else
    let r := insert_rows prim
    if r.2 = [] then (⟨[], s.total + s.batch.length, s.batch_size⟩, r.1, none)
    else (s, r.1, some r.2)

/-! ### Driver-level failure propagation (generate_losses.py main, main.py) -/

/-- The single-process path of `main()` (lines 698-708):
`list(map(functools.partial(run_losses, ...), sims))`.  `f` is `run_losses`
after its tenacity retries: `.error` = the trial raised after exhausting
retries.  Returns (the sim ids on which `f` was actually invoked, the result of
the `list(...)` expression — `.error` when the exception propagates out of it). -/
def mapLoop (f : ℕ → Except String ℕ) : List ℕ → List ℕ × Except String (List ℕ)
  | [] => ([], .ok [])
  | s :: rest =>
    match f s with
    | .error e => ([s], .error e)
    | .ok r =>
      let t := mapLoop f rest
      (s :: t.1, t.2.map (r :: ·))

/-- The multiprocessing path of `main()` (lines 747-759):
`list(tqdm(pool.imap_unordered(...)))` consumes per-trial results in completion
order; when the consumed result is a worker exception, `imap_unordered`
re-raises it in the parent and the `list(...)` aborts. -/
def consumeResults : List (Except String ℕ) → Except String (List ℕ)
  | [] => .ok []
  | .error e :: _ => .error e
  | .ok v :: rest => (consumeResults rest).map (v :: ·)

/-- `_start_simulation` of main.py (lines 136-151): the `run_losses` call is
wrapped in `try/except Exception`, which logs and swallows the failure, so the
function always returns normally; `true` records that a failure was logged. -/
def startSimulation (r : Except String ℕ) : Bool :=
  match r with
  | .error _ => true
  | .ok _ => false

/-! ### v2 (geo-type) output row loops of run_losses -/

def OUTPUT_EXPOSURES : String := "exposures"
def OUTPUT_PREMIUMS : String := "premiums"
def OUTPUT_LOSSES : String := "losses"
def OUTPUT_NLR : String := "nlr"

/-- `generate_loss_ratio` (lines 118-121): `round(loss / premium, 4)` when the
premium is nonzero, else 0.  Rounding to 4 decimals is embedded via `round`
(the claims below never depend on tie behaviour). -/
def generate_loss_ratio (premium loss : ℚ) : ℚ :=
  if premium ≠ 0 then ((round (loss / premium * 10000) : ℤ) : ℚ) / 10000 else 0

/-- A geo dictionary whose three keyed levels carry their insertion-ordered
items explicitly, for the output loops that iterate `dict.items()`. -/
structure AssocGeo where
  total : ℚ
  state : List (String × ℚ)
  county : List (String × ℚ)
  zip : List (String × ℚ)

/-- Python `d[k]` on one level's dict (all levels share one key universe, so the
looked-up key is present; absent keys are embedded as 0). -/
def lookupQ (items : List (String × ℚ)) (k : String) : ℚ :=
  ((items.find? (fun p => p.1 == k)).map Prod.snd).getD 0

/-- One buffered `output_stream.add` of a v2 geo-type row: output kind plus the
row's varying fields (`run_timestamp` and `sim_id` are constant per trial and
omitted; `geo_type` is kept as the string fed to `geo_types.str_to_int`). -/
structure Emit where
  kind : String
  geo_type : String
  geography : String
  value : ℚ
  deriving DecidableEq

/-- Iteration order of `loss_dictionary.items()` etc.: the literal dicts of
`run_losses` are built with keys total, state, county, zip in that order. -/
def geoKeys : List String := ["total", "state", "county", "zip"]

/-- The keyed level of an `AssocGeo` selected by a non-total geo key. -/
def levelItems (d : AssocGeo) (k : String) : List (String × ℚ) :=
  if k = "state" then d.state else if k = "county" then d.county else d.zip

inductive PyErr
  | unboundLocal
  deriving DecidableEq

/-- The inner `for geography, total in value.items()` body of the v2 losses/NLR
loop (lines 463-477), threading the local `nlr_value` (`Option ℚ`: `none` while
unbound). -/
def lossNlrLevel (premItems : List (String × ℚ)) (k : String) :
    List (String × ℚ) → Option ℚ → List Emit → Option ℚ × List Emit
  | [], nlrVar, acc => (nlrVar, acc)
  | (geography, total) :: rest, _, acc =>
    let nlr_value := generate_loss_ratio (lookupQ premItems geography) total
    let acc1 := acc ++ (if total ≠ 0 then [⟨OUTPUT_LOSSES, k, geography, total⟩] else [])
    let acc2 := acc1 ++ (if nlr_value ≠ 0 then [⟨OUTPUT_NLR, k, geography, nlr_value⟩] else [])
    lossNlrLevel premItems k rest (some nlr_value) acc2

/-- The v2 branch of the losses/NLR output loop (lines 448-477).  In the
`total` branch the code emits the loss row under `if value:` and then evaluates
`if nlr_value:`; reading the local while it is unbound is `PyErr.unboundLocal`.
The NLR row's value is recomputed as
`generate_loss_ratio(premium_dictionary[geo_type], value)` (line 461). -/
def lossNlrLoopV2 (lossD premD : AssocGeo) :
    List String → Option ℚ → List Emit → Except PyErr (List Emit)
  | [], _, acc => .ok acc
  | k :: ks, nlrVar, acc =>
    if k = "total" then
      let value := lossD.total
      let acc1 := acc ++ (if value ≠ 0 then [⟨OUTPUT_LOSSES, k, k, value⟩] else [])
      match nlrVar with
      | none => .error .unboundLocal
      | some nv =>
        let acc2 := acc1 ++ (if nv ≠ 0 then
          [⟨OUTPUT_NLR, k, k, generate_loss_ratio premD.total value⟩] else [])
        lossNlrLoopV2 lossD premD ks (some nv) acc2
    else
      let r := lossNlrLevel (levelItems premD k) k (levelItems lossD k) nlrVar acc
      lossNlrLoopV2 lossD premD ks r.1 r.2

/-- The whole v2 losses/NLR emission loop of one trial (lines 447-477). -/
def runLossNlrV2 (lossD premD : AssocGeo) : Except PyErr (List Emit) :=
  lossNlrLoopV2 lossD premD geoKeys none []

/-- The inner `for geography, total in value.items()` body of the v2
exposure/premium loop (lines 396-411): exposure rows under OUTPUT_EXPOSURES,
premium rows under OUTPUT_PREMIUMS, each guarded by truthiness. -/
def expPremLevel (premItems : List (String × ℚ)) (k : String) :
    List (String × ℚ) → List Emit
  | [] => []
  | (geography, total) :: rest =>
    let premium_total := lookupQ premItems geography
    (if total ≠ 0 then [⟨OUTPUT_EXPOSURES, k, geography, total⟩] else []) ++
    (if premium_total ≠ 0 then [⟨OUTPUT_PREMIUMS, k, geography, premium_total⟩] else []) ++
    expPremLevel premItems k rest

/-- The `total` branch of the v2 exposure/premium loop (lines 383-395), exactly
as written: `exposure_row[geo_type] = value; premium_row[geo_type] = value`
where `value` is the EXPOSURE dictionary's total, and both guarded emissions go
to `OUTPUT_EXPOSURES`.  Returns (exposure_row total, premium_row total,
emissions). -/
def expPremTotalBranch (expD : AssocGeo) : ℚ × ℚ × List Emit :=
  let value := expD.total
  let exposure_row_total := value
  let premium_row_total := value
  let total := exposure_row_total
  let premium_total := premium_row_total
  (exposure_row_total, premium_row_total,
    (if total ≠ 0 then [⟨OUTPUT_EXPOSURES, "total", "total", total⟩] else []) ++
    (if premium_total ≠ 0 then [⟨OUTPUT_EXPOSURES, "total", "total", premium_total⟩] else []))

/-- The whole v2 exposure/premium emission loop of one trial (lines 381-411):
returns (the value assigned to `premium_row['total']`, all emissions in loop
order).  The `premium_dictionary` enters only through its keyed levels — its
`total` is never read. -/
def runExpPremV2 (expD premD : AssocGeo) : ℚ × List Emit :=
  let tb := expPremTotalBranch expD
  (tb.2.1,
    tb.2.2 ++ expPremLevel premD.state "state" expD.state
          ++ expPremLevel premD.county "county" expD.county
          ++ expPremLevel premD.zip "zip" expD.zip)

/-! ### BufferedOutputStream (simulation_output.py lines 202-279) -/

abbrev BufRow := ℕ

/-- `self.buffer`: a `defaultdict(list)` embedded as an insertion-ordered
association list from output kind to its buffered rows. -/
abbrev Buffer := List (String × List BufRow)

def DEFAULT_PER_OUTPUT_MAX_ROWS : ℕ := 500
def DEFAULT_TOTAL_BUFFER_MAX_ROWS : ℕ := 5000

/-- `self.buffer[output_name]` read access (empty list when unregistered). -/
def bufGet (b : Buffer) (k : String) : List BufRow :=
  ((b.find? (fun p => p.1 == k)).map Prod.snd).getD []

/-- `self.buffer[output_name].extend(rows)`: registers the kind at the end of
the insertion order on first touch, appends to its list otherwise. -/
def bufAppend : Buffer → String → List BufRow → Buffer
  | [], k, rows => [(k, rows)]
  | (k1, rs) :: rest, k, rows =>
    if k1 == k then (k1, rs ++ rows) :: rest else (k1, rs) :: bufAppend rest k rows

/-- State of one `BufferedOutputStream` (thresholds, buffers, global counter). -/
structure BufferedStream where
  per_output_max_rows : ℕ
  total_buffer_max_rows : ℕ
  buffer : Buffer
  total_in_buffer : ℕ
  deriving DecidableEq

/-- The send loop inside `flush` (lines 271-274): one `outputs.send` per
buffered kind, skipping empty buffers, in buffer (= kind-registration) order. -/
def flushSendLoop : Buffer → List (String × List BufRow)
  | [] => []
  | (k, rs) :: rest => if rs = [] then flushSendLoop rest else (k, rs) :: flushSendLoop rest

/-- `BufferedOutputStream.flush` (lines 270-275): emit the sends, then
`_init_buffer()` (fresh empty buffers, counter reset to 0). -/
def streamFlushB (s : BufferedStream) : BufferedStream × List (String × List BufRow) :=
  (⟨s.per_output_max_rows, s.total_buffer_max_rows, [], 0⟩, flushSendLoop s.buffer)

/-- `BufferedOutputStream.add` (lines 260-268).  A single dict argument is the
singleton list.  Returns (state afterwards, sends emitted, number of `flush()`
calls made by this add). -/
def streamAdd (s : BufferedStream) (output_name : String) (rows : List BufRow) :
    BufferedStream × List (String × List BufRow) × ℕ :=
  let b := bufAppend s.buffer output_name rows
  let t := s.total_in_buffer + rows.length
  let s1 : BufferedStream := ⟨s.per_output_max_rows, s.total_buffer_max_rows, b, t⟩
  if (bufGet b output_name).length ≥ s.per_output_max_rows ∨ t ≥ s.total_buffer_max_rows then
    let r := streamFlushB s1
    (r.1, r.2, 1)
  else (s1, [], 0)

/-- `__exit__` (lines 256-258): unconditionally one `flush()`, for normal or
exceptional scope exit alike (the exception arguments are ignored). -/
def streamExit (s : BufferedStream) : BufferedStream × List (String × List BufRow) :=
  streamFlushB s

/-! ### LocalCsvWriter (simulation_output.py lines 282-352) -/

/-- One output row: a Python dict embedded as an insertion-ordered association
list from column name to cell text. -/
abbrev CsvRow := List (String × String)

def rowKeys (r : CsvRow) : List String := r.map Prod.fst

/-- `csv.DictWriter.writerow`: the row's values laid out in the writer's
fieldname order (a missing key falls back to the default `restval`, here ""). -/
def rowLine (fieldnames : List String) (r : CsvRow) : List String :=
  fieldnames.map (fun k => ((r.find? (fun p => p.1 == k)).map Prod.snd).getD "")

/-- One open `csv.DictWriter`: the fieldnames fixed at open time and the lines
written to the underlying file so far. -/
structure CsvFile where
  fieldnames : List String
  lines : List (List String)
  deriving DecidableEq

/-- `LocalCsvWriter` state: constructor fields plus `self.file_writers`. -/
structure CsvWriterState where
  output_dir : String
  storm_type : String
  file_writers : List (String × CsvFile)
  deriving DecidableEq

/-- Python `s.endswith(suffix)`, embedded over the underlying char lists. -/
def strEndsWith (s suffix : String) : Bool :=
  suffix.data.isSuffixOf s.data

/-- `format_filepath` (lines 318-325), from the format string
`'{output_dir}{slash}{storm_type}_{output_name}.csv'` with
`slash='/' if not self.output_dir.endswith('/') else ''`. -/
def format_filepath (output_dir storm_type output_name : String) : String :=
  output_dir ++ (if strEndsWith output_dir "/" then "" else "/") ++
    storm_type ++ "_" ++ output_name ++ ".csv"

def filesGet (fs : List (String × CsvFile)) (path : String) : Option CsvFile :=
  (fs.find? (fun p => p.1 == path)).map Prod.snd

/-- `get_writer` (lines 327-341): open the file on first use, creating a
DictWriter with the given fieldnames and keeping it keyed by filepath; an
already-open writer is reused untouched.  Opening writes nothing: the
DictWriter writes NO header line (`writeheader()` is never called). -/
def getWriter (fs : List (String × CsvFile)) (path : String) (fieldnames : List String) :
    List (String × CsvFile) :=
  match filesGet fs path with
  | some _ => fs
  | none => fs ++ [(path, ⟨fieldnames, []⟩)]

/-- `file_writer.writerow(row)`: append one data line to the file at `path`,
formatted with the fieldnames stored in that open writer. -/
def writeLine (fs : List (String × CsvFile)) (path : String) (r : CsvRow) :
    List (String × CsvFile) :=
  fs.map (fun p =>
    if p.1 == path then (p.1, ⟨p.2.fieldnames, p.2.lines ++ [rowLine p.2.fieldnames r]⟩)
    else p)

/-- `LocalCsvWriter.write_rows` (lines 343-352): one filepath per output kind;
for each row, lazily get the writer (fieldnames from that row's keys) and write
the row. -/
def write_rows (s : CsvWriterState) (output_name : String) (rows : List CsvRow) :
    CsvWriterState :=
  let path := format_filepath s.output_dir s.storm_type output_name
  ⟨s.output_dir, s.storm_type,
    rows.foldl (fun fs r => writeLine (getWriter fs path (rowKeys r)) path r) s.file_writers⟩

/-! ### Writer-construction helpers (generate_losses.py lines 521-532) -/

/-- One parameter of a Python signature: its name and whether it has a default. -/
structure PyParam where
  name : String
  hasDefault : Bool

/-- Python call binding for a call with `npos` positional arguments and the
keyword arguments `kws`: succeeds iff the positionals fit and every parameter
not filled positionally gets a keyword argument or has a default.  A failed
binding raises `TypeError`. -/
def bindsOk (sig : List PyParam) (npos : ℕ) (kws : List String) : Bool :=
  decide (npos ≤ sig.length) &&
  kws.all (fun kw => (sig.drop npos).any (fun p => p.name == kw)) &&
  (sig.drop npos).all (fun p => p.hasDefault || kws.contains p.name)

/-- `LocalCsvWriter.__init__(self, output_dir, storm_type, overwrite=False)`
(simulation_output.py line 289). -/
def localCsvWriterSig : List PyParam :=
  [⟨"output_dir", false⟩, ⟨"storm_type", false⟩, ⟨"overwrite", true⟩]

/-- `BigqueryRowWriter.__init__(self, project_id, storm_type, dataset=DEFAULT_DATASET)`
(simulation_output.py line 383). -/
def bigqueryRowWriterSig : List PyParam :=
  [⟨"project_id", false⟩, ⟨"storm_type", false⟩, ⟨"dataset", true⟩]

inductive SetupErr
  | typeError
  | projectIdRequired
  deriving DecidableEq

/-- Python truthiness of an optional string (None and "" are falsy). -/
def pyTruthy : Option String → Bool
  | none => false
  | some s => !(s == "")

/-- `setup_csv_writer(csv_output_dir, overwrite)` (lines 529-532): calls
`LocalCsvWriter(csv_output_dir, overwrite=overwrite)` — one positional
argument plus the keyword `overwrite`. -/
def setup_csv_writer (csv_output_dir : String) (overwrite : Bool) : Except SetupErr Unit :=
  if bindsOk localCsvWriterSig 1 ["overwrite"] then .ok () else .error .typeError

/-- `setup_bigquery_writer(project_id, dataset)` (lines 521-526): first
`if not project_id: raise Exception('--project_id is REQUIRED ...')`, then
`BigqueryRowWriter(project_id, dataset=dataset)` — one positional argument plus
the keyword `dataset`. -/
def setup_bigquery_writer (project_id : Option String) (dataset : String) :
    Except SetupErr Unit :=
  if pyTruthy project_id then
    if bindsOk bigqueryRowWriterSig 1 ["dataset"] then .ok () else .error .typeError
  else .error .projectIdRequired

/-! ### Concrete sample inputs used by witnesses and counterexamples -/

/-- All-zero geo dictionary, the state of `exposure_dictionary` at trial start. -/
def zeroGeoDict : GeoDict := ⟨0, fun _ => 0, fun _ => 0, fun _ => 0⟩

/-- A sample property (an Arkansas house with a 100-dollar limit). -/
def sampleProp : Property := ⟨"AR", "Stone", "72560", 100⟩

/-- A dictionary whose exposure total sits exactly on `total_agg_limit - 15000`. -/
def ceilingEdgeDict : GeoDict := ⟨199985000, fun _ => 0, fun _ => 0, fun _ => 0⟩

/-- A `run_losses` stand-in whose trial 0 raises after exhausting its retries
and whose other trials succeed. -/
def failF : ℕ → Except String ℕ := fun i => if i = 0 then .error "boom" else .ok i

/-- A fresh `LocalCsvWriter` over the default output dir and the hail storm type. -/
def freshCsvState : CsvWriterState := ⟨"files/output", "hail", []⟩

/-! ## Theorems -/

/-! ### C1: the per-add overshoot bound of the exposure-aggregation loop -/

theorem sampleLoop_log_le (props : List Property) :
    ∀ d x, x ∈ (sampleLoop d props).2 → x.2 ≤ total_agg_limit + x.1 := by
  induction props with
  | nil => intro d x hx; simp [sampleLoop] at hx
  | cons p rest ih =>
    intro d x hx
    rw [sampleLoop] at hx
    by_cases h : exposureCeilingHit d p.state
    · simp [h] at hx
    · simp only [h, Bool.false_eq_true, if_false, List.mem_cons] at hx
      rcases hx with hx | hx
      · have h1 : ¬ d.total > total_agg_limit - safety_margin := by
          simp only [exposureCeilingHit, Bool.or_eq_true, decide_eq_true_eq] at h
          exact fun hc => h (Or.inl hc)
        have h2 : d.total ≤ total_agg_limit - safety_margin := not_lt.mp h1
        have hm : (0 : ℚ) ≤ safety_margin := by norm_num [safety_margin]
        subst hx
        simp only [addLimit]
        linarith
      · exact ih _ _ hx

theorem regionLoop_log_le (regions : List (List Property)) :
    ∀ d x, x ∈ (regionLoop d regions).2 → x.2 ≤ total_agg_limit + x.1 := by
  induction regions with
  | nil => intro d x hx; simp [regionLoop] at hx
  | cons props rest ih =>
    intro d x hx
    rw [regionLoop] at hx
    by_cases h : (sampleLoop d props).1.total > total_agg_limit - safety_margin
    · rw [if_pos (by simpa using h)] at hx
      exact sampleLoop_log_le props d x hx
    · rw [if_neg (by simpa using h)] at hx
      rcases List.mem_append.mp hx with hx | hx
      · exact sampleLoop_log_le props d x hx
      · exact ih _ _ hx

/-- C1: for every sequence of property additions performed by one trial's
exposure-aggregation loop (each addition guarded by the pre-add ceiling check,
inner and outer break included), the exposure total never exceeds the ceiling
`total_agg_limit = 200000000` by more than the single `limit` amount of the
property added last: after every add, `total ≤ total_agg_limit + amount`. -/
theorem exposure_overshoot_at_most_one_limit
    (d : GeoDict) (regions : List (List Property)) (x : ℚ × ℚ)
    (hx : x ∈ (regionLoop d regions).2) :
    x.2 ≤ total_agg_limit + x.1 ∧ total_agg_limit = 200000000 :=
  ⟨regionLoop_log_le regions d x hx, rfl⟩

theorem zero_ceiling_false : exposureCeilingHit zeroGeoDict sampleProp.state = false := by
  simp only [exposureCeilingHit, zeroGeoDict, sampleProp, Bool.or_eq_false_iff,
    decide_eq_false_iff_not, not_lt, total_agg_limit, state_agg_limit, safety_margin]
  norm_num

theorem regionLoop_concrete_log :
    (regionLoop zeroGeoDict [[sampleProp]]).2 = [((100 : ℚ), (100 : ℚ))] := by
  rw [regionLoop, sampleLoop, zero_ceiling_false]
  simp only [Bool.false_eq_true, if_false, sampleLoop]
  rw [if_neg]
  · simp [addLimit, zeroGeoDict, sampleProp, regionLoop]
  · simp only [decide_eq_true_eq, not_lt, addLimit, zeroGeoDict, sampleProp]
    norm_num [total_agg_limit, safety_margin]

theorem exposure_overshoot_at_most_one_limit_witness :
    ((100 : ℚ), (100 : ℚ)) ∈ (regionLoop zeroGeoDict [[sampleProp]]).2 ∧
    (100 : ℚ) ≤ total_agg_limit + 100 ∧ total_agg_limit = 200000000 :=
  have hm : ((100 : ℚ), (100 : ℚ)) ∈ (regionLoop zeroGeoDict [[sampleProp]]).2 := by
    rw [regionLoop_concrete_log]; exact List.mem_singleton.mpr rfl
  ⟨hm, exposure_overshoot_at_most_one_limit zeroGeoDict [[sampleProp]] (100, 100) hm⟩

/-! ### C2: the exact shape of the pre-add ceiling check -/

/-- C2 counterexample: the claim says the add is skipped already at exact
equality with the threshold (`total ≥ totalCeiling − safetyMargin`).  The code
compares strictly: at `total = total_agg_limit - 15000` the spec-worded check
trips but `run_losses` performs the add. -/
theorem edge_ceiling_false : exposureCeilingHit ceilingEdgeDict sampleProp.state = false := by
  simp only [exposureCeilingHit, ceilingEdgeDict, sampleProp, Bool.or_eq_false_iff,
    decide_eq_false_iff_not, not_lt, total_agg_limit, state_agg_limit, safety_margin]
  norm_num

theorem ceiling_check_equality_cex :
    ceilingEdgeDict.total = total_agg_limit - safety_margin ∧
    specCeilingHit ceilingEdgeDict sampleProp.state = true ∧
    exposureCeilingHit ceilingEdgeDict sampleProp.state = false ∧
    (innerStep ceilingEdgeDict sampleProp).map GeoDict.total
      = some (total_agg_limit - safety_margin + sampleProp.limit) := by
  refine ⟨?_, ?_, edge_ceiling_false, ?_⟩
  · norm_num [ceilingEdgeDict, total_agg_limit, safety_margin]
  · simp only [specCeilingHit, ceilingEdgeDict, Bool.or_eq_true, decide_eq_true_eq]
    left
    norm_num [total_agg_limit, safety_margin]
  · rw [innerStep, edge_ceiling_false]
    simp only [Bool.false_eq_true, if_false, Option.map_some, addLimit]
    norm_num [ceilingEdgeDict, sampleProp, total_agg_limit, safety_margin]

/-- C2 amended: the pre-add check of `run_losses` is STRICT — the add is
skipped, and sampling for the current region stops, exactly when
`total > total_agg_limit − 15000` or `state[state] > state_agg_limit − 15000`
(at exact equality with a threshold the add still proceeds); otherwise all four
levels (total, state, county, zip) are incremented by the amount. -/
theorem ceiling_check_strict (d : GeoDict) (p : Property) :
    (innerStep d p = none ↔
      (d.total > total_agg_limit - safety_margin ∨
       d.state p.state > state_agg_limit - safety_margin)) ∧
    (exposureCeilingHit d p.state = true → ∀ rest, sampleLoop d (p :: rest) = (d, [])) ∧
    (exposureCeilingHit d p.state = false →
      innerStep d p = some (addLimit d p) ∧
      (addLimit d p).total = d.total + p.limit ∧
      (addLimit d p).state p.state = d.state p.state + p.limit ∧
      (addLimit d p).county p.county = d.county p.county + p.limit ∧
      (addLimit d p).zip p.zip_code = d.zip p.zip_code + p.limit) := by
  refine ⟨?_, ?_, ?_⟩
  · by_cases hb : exposureCeilingHit d p.state
    · have hb2 : total_agg_limit - safety_margin < d.total ∨
          state_agg_limit - safety_margin < d.state p.state := by
        simpa [exposureCeilingHit] using hb
      rw [innerStep, if_pos hb]
      exact iff_of_true rfl hb2
    · have hb2 : ¬(total_agg_limit - safety_margin < d.total) ∧
          ¬(state_agg_limit - safety_margin < d.state p.state) := by
        simpa [exposureCeilingHit] using hb
      rw [innerStep, if_neg hb]
      exact iff_of_false (fun h => Option.noConfusion h) (not_or.mpr hb2)
  · intro h rest; rw [sampleLoop, if_pos h]
  · intro h
    refine ⟨by simp [innerStep, h], ?_, ?_, ?_, ?_⟩ <;>
      simp [addLimit, Function.update_same]

theorem ceiling_check_strict_witness :
    exposureCeilingHit zeroGeoDict sampleProp.state = false ∧
    (addLimit zeroGeoDict sampleProp).total = zeroGeoDict.total + sampleProp.limit ∧
    (addLimit zeroGeoDict sampleProp).state sampleProp.state
      = zeroGeoDict.state sampleProp.state + sampleProp.limit :=
  ⟨zero_ceiling_false,
   ((ceiling_check_strict zeroGeoDict sampleProp).2.2 zero_ceiling_false).2.1,
   ((ceiling_check_strict zeroGeoDict sampleProp).2.2 zero_ceiling_false).2.2.1⟩

/-! ### C3: the BufferedOutputStream contract -/

theorem flushSendLoop_eq_filter (b : Buffer) :
    flushSendLoop b = b.filter (fun p => !p.2.isEmpty) := by
  induction b with
  | nil => rfl
  | cons p rest ih =>
    obtain ⟨k, rs⟩ := p
    cases rs with
    | nil => simpa [flushSendLoop] using ih
    | cons r rs => simpa [flushSendLoop] using ih

theorem mem_keys_bufAppend (b : Buffer) (k : String) (rows : List BufRow) (x : String) :
    x ∈ (bufAppend b k rows).map Prod.fst ↔ x ∈ b.map Prod.fst ∨ x = k := by
  induction b with
  | nil => simp [bufAppend]
  | cons p rest ih =>
    obtain ⟨k1, rs⟩ := p
    rw [bufAppend]
    by_cases h : k1 == k
    · have hk : k1 = k := by simpa using h
      subst hk
      simp only [if_pos h, List.map_cons, List.mem_cons]
      tauto
    · simp only [if_neg h, List.map_cons, List.mem_cons, ih]
      tauto

theorem bufAppend_keys_nodup (k : String) (rows : List BufRow) :
    ∀ b : Buffer, (b.map Prod.fst).Nodup → ((bufAppend b k rows).map Prod.fst).Nodup := by
  intro b
  induction b with
  | nil => intro _; simp [bufAppend]
  | cons p rest ih =>
    intro h
    obtain ⟨k1, rs⟩ := p
    rw [bufAppend]
    simp only [List.map_cons, List.nodup_cons] at h
    by_cases hk : k1 == k
    · rw [if_pos hk]
      simp only [List.map_cons, List.nodup_cons]
      exact h
    · rw [if_neg hk]
      simp only [List.map_cons, List.nodup_cons]
      refine ⟨?_, ih h.2⟩
      intro hmem
      rcases (mem_keys_bufAppend rest k rows k1).mp hmem with hm | hm
      · exact h.1 hm
      · exact hk (by simp [hm])

theorem filter_keys_sublist_nodup (b : Buffer) (h : (b.map Prod.fst).Nodup) :
    ((b.filter (fun p => !p.2.isEmpty)).map Prod.fst).Nodup := by
  have hs : (b.filter (fun p => !p.2.isEmpty)).Sublist b := List.filter_sublist b
  exact h.sublist (hs.map Prod.fst)

/-- C3: for every sequence of `add(output_kind, rows)` calls on a
`BufferedOutputStream`, an add whose result makes that kind's buffer reach
`per_output_max_rows` (default 500), or the global counter reach
`total_buffer_max_rows` (default 5000), triggers exactly one flush; every
flush sends each non-empty per-kind buffer through the fanout in exactly one
send per kind, in kind-registration order, then clears all buffers and resets
the counter to 0; and scope exit triggers exactly one final flush, a no-op
when all buffers are empty. -/
theorem buffered_stream_contract :
    (∀ (s : BufferedStream) (k : String) (rows : List BufRow),
      ((bufGet (bufAppend s.buffer k rows) k).length ≥ s.per_output_max_rows ∨
          s.total_in_buffer + rows.length ≥ s.total_buffer_max_rows →
        streamAdd s k rows =
          (⟨s.per_output_max_rows, s.total_buffer_max_rows, [], 0⟩,
            flushSendLoop (bufAppend s.buffer k rows), 1)) ∧
      (¬((bufGet (bufAppend s.buffer k rows) k).length ≥ s.per_output_max_rows ∨
          s.total_in_buffer + rows.length ≥ s.total_buffer_max_rows) →
        streamAdd s k rows =
          (⟨s.per_output_max_rows, s.total_buffer_max_rows, bufAppend s.buffer k rows,
            s.total_in_buffer + rows.length⟩, [], 0))) ∧
    (∀ s : BufferedStream,
      streamExit s =
        (⟨s.per_output_max_rows, s.total_buffer_max_rows, [], 0⟩,
          s.buffer.filter (fun p => !p.2.isEmpty))) ∧
    (∀ s : BufferedStream, (s.buffer.map Prod.fst).Nodup →
      (((streamExit s).2.map Prod.fst).Nodup ∧
        ∀ k rows, ((bufAppend s.buffer k rows).map Prod.fst).Nodup)) ∧
    (∀ s : BufferedStream, (∀ p ∈ s.buffer, p.2 = []) → (streamExit s).2 = []) ∧
    DEFAULT_PER_OUTPUT_MAX_ROWS = 500 ∧ DEFAULT_TOTAL_BUFFER_MAX_ROWS = 5000 := by
  refine ⟨?_, ?_, ?_, ?_, rfl, rfl⟩
  · intro s k rows
    constructor
    · intro h
      simp only [streamAdd, streamFlushB]
      rw [if_pos h]
    · intro h
      simp only [streamAdd, streamFlushB]
      rw [if_neg h]
  · intro s
    simp only [streamExit, streamFlushB, flushSendLoop_eq_filter]
  · intro s h
    refine ⟨?_, fun k rows => bufAppend_keys_nodup k rows s.buffer h⟩
    simp only [streamExit, streamFlushB, flushSendLoop_eq_filter]
    exact filter_keys_sublist_nodup s.buffer h
  · intro s h
    simp only [streamExit, streamFlushB, flushSendLoop_eq_filter]
    rw [List.filter_eq_nil_iff]
    intro p hp
    simp [h p hp]

theorem buffered_stream_contract_witness :
    streamAdd ⟨2, 10, [], 0⟩ "exposures" [1, 2]
      = (⟨2, 10, [], 0⟩, [("exposures", [1, 2])], 1) ∧
    streamAdd ⟨2, 10, [], 0⟩ "exposures" [1]
      = (⟨2, 10, [("exposures", [1])], 1⟩, [], 0) ∧
    (streamExit ⟨2, 10, [("exposures", [1]), ("premiums", [])], 1⟩).2
      = [("exposures", [1])] :=
  ⟨((buffered_stream_contract.1 ⟨2, 10, [], 0⟩ "exposures" [1, 2]).1
      (by decide)).trans (by decide),
   ((buffered_stream_contract.1 ⟨2, 10, [], 0⟩ "exposures" [1]).2
      (by decide)).trans (by decide),
   by
    have h := buffered_stream_contract.2.1 ⟨2, 10, [("exposures", [1]), ("premiums", [])], 1⟩
    rw [h]
    decide⟩

/-! ### C4: BigqueryInsertStream.flush retry behaviour -/

/-- C4: `BigqueryInsertStream.flush` on a non-empty batch: a primitive that
always returns errors is invoked exactly 5 times
(`INSERT_ROW_RETRY_MAX_RETRIES`) and flush raises the typed errors carrying the
last error set with the batch not cleared; a primitive that errors twice then
succeeds is invoked exactly 3 times, the batch is cleared and the running row
total grows by the batch size. -/
theorem bq_flush_retry_contract :
    (∀ (prim : ℕ → List String) (s : InsertStreamState), s.batch ≠ [] →
      (∀ i, prim i ≠ []) →
      bqFlush prim s = (s, 5, some (prim 4)) ∧ INSERT_ROW_RETRY_MAX_RETRIES = 5) ∧
    (∀ (prim : ℕ → List String) (s : InsertStreamState), s.batch ≠ [] →
      prim 0 ≠ [] → prim 1 ≠ [] → prim 2 = [] →
      bqFlush prim s = (⟨[], s.total + s.batch.length, s.batch_size⟩, 3, none)) := by
  constructor
  · intro prim s hb hall
    refine ⟨?_, rfl⟩
    have hins : insert_rows prim = (5, prim 4) := by
      simp [insert_rows, INSERT_ROW_RETRY_MAX_RETRIES, retryInsertLoop,
        hall 0, hall 1, hall 2, hall 3, hall 4]
    simp only [bqFlush, hins, if_neg hb]
    simp [hall 4]
  · intro prim s hb h0 h1 h2
    have hins : insert_rows prim = (3, []) := by
      simp [insert_rows, INSERT_ROW_RETRY_MAX_RETRIES, retryInsertLoop, h0, h1, h2]
    simp only [bqFlush, hins, if_neg hb]
    simp

theorem bq_flush_retry_contract_witness :
    bqFlush (fun _ => ["err"]) ⟨[7], 0, 10000⟩ = (⟨[7], 0, 10000⟩, 5, some ["err"]) ∧
    bqFlush (fun i => if i ≤ 1 then ["err"] else []) ⟨[7, 8], 4, 10000⟩
      = (⟨[], 6, 10000⟩, 3, none) :=
  ⟨((bq_flush_retry_contract.1 (fun _ => ["err"]) ⟨[7], 0, 10000⟩
      (by decide) (fun i => by simp)).1).trans (by decide),
   (bq_flush_retry_contract.2 (fun i => if i ≤ 1 then ["err"] else []) ⟨[7, 8], 4, 10000⟩
      (by decide) (by decide) (by decide) (by decide)).trans (by decide)⟩

/-! ### C5: what a failed trial does to the driver's mapping -/

/-- C5 counterexample: in `generate_losses.main` nothing catches a trial's
exception.  With trial 0 failing, the single-process `list(map(...))` propagates
the error: trial 1 is never invoked and the mapping aborts (and the
`imap_unordered` consumption aborts the same way), contradicting the claim that
the loop continues, records the failure, and runs the siblings. -/
theorem trial_failure_aborts_pool_cex :
    mapLoop failF [0, 1, 2] = ([0], .error "boom") ∧
    (1 : ℕ) ∉ (mapLoop failF [0, 1, 2]).1 ∧
    consumeResults [.error "boom", .ok 1] = (.error "boom" : Except String (List ℕ)) := by
  refine ⟨rfl, ?_, rfl⟩
  rw [show mapLoop failF [0, 1, 2] = ([0], .error "boom") from rfl]
  decide

/-- C5 amended: a trial raising after exhausting its retries propagates out of
both driver paths of `generate_losses.main`: the single-process map stops at the
failing trial (sibling trials after it never run, nothing is recorded) and the
multiprocessing result consumption re-raises at the failed result, aborting the
mapping.  Only `_start_simulation` in main.py catches the trial's exception and
returns normally. -/
theorem trial_failure_aborts_mapping :
    (∀ (f : ℕ → Except String ℕ) (pre : List ℕ) (s : ℕ) (post : List ℕ) (e : String),
      (∀ t ∈ pre, ∃ r, f t = .ok r) → f s = .error e →
      mapLoop f (pre ++ s :: post) = (pre ++ [s], .error e)) ∧
    (∀ (vals : List ℕ) (e : String) (post : List (Except String ℕ)),
      consumeResults (vals.map .ok ++ .error e :: post) = .error e) ∧
    (∀ e : String, startSimulation (.error e) = true) ∧
    (∀ n : ℕ, startSimulation (.ok n) = false) := by
  refine ⟨?_, ?_, fun e => rfl, fun n => rfl⟩
  · intro f pre s post e
    induction pre with
    | nil => intro _ hs; simp [mapLoop, hs]
    | cons t rest ih =>
      intro hpre hs
      obtain ⟨r, hr⟩ := hpre t (List.mem_cons_self t rest)
      have hrec := ih (fun u hu => hpre u (List.mem_cons_of_mem _ hu)) hs
      simp [mapLoop, hr, hrec, Except.map]
  · intro vals e post
    induction vals with
    | nil => rfl
    | cons v rest ih => simp [consumeResults, ih, Except.map]

theorem trial_failure_aborts_mapping_witness :
    mapLoop failF [1, 0, 2] = ([1, 0], .error "boom") ∧
    consumeResults ([3].map .ok ++ .error "boom" :: [.ok 1])
      = (.error "boom" : Except String (List ℕ)) ∧
    startSimulation (.error "boom") = true :=
  ⟨by
    have h := trial_failure_aborts_mapping.1 failF [1] 0 [2] "boom"
      (by
        intro t ht
        have ht1 : t = 1 := by simpa using ht
        subst ht1
        exact ⟨1, rfl⟩)
      rfl
    simpa using h,
   trial_failure_aborts_mapping.2.1 [3] "boom" [.ok 1],
   trial_failure_aborts_mapping.2.2.1 "boom"⟩

/-! ### C6: the unbound `nlr_value` read in the v2 losses/NLR loop -/

/-- C6: in the geo-type (v2) schema path of `run_losses`, the losses/NLR
emission loop iterates `loss_dictionary` with key `total` first; in that first
iteration it evaluates `if nlr_value:` although the only assignment to
`nlr_value` sits in the per-geography `else` branch that has not run yet — so
for every trial (any loss/premium dictionaries) the loop reads the local while
unbound (`UnboundLocalError`). -/
theorem nlr_value_unbound_in_total_branch (lossD premD : AssocGeo) :
    runLossNlrV2 lossD premD = .error .unboundLocal := rfl

/-! ### C7: the storm-generation loop keeps one storm too many -/

theorem stormLoop_gt (limit : ℕ) :
    ∀ (cands : List Bool) (n : ℕ), limit < n → stormLoop limit cands n = n := by
  intro cands
  induction cands with
  | nil => intro n _; rfl
  | cons c rest _ => intro n h; rw [stormLoop, if_neg (by omega)]

theorem stormLoop_replicate_true (limit : ℕ) :
    ∀ (m n : ℕ), n ≤ limit → limit + 1 ≤ n + m →
      stormLoop limit (List.replicate m true) n = limit + 1 := by
  intro m
  induction m with
  | zero => intro n hn hm; exfalso; omega
  | succ m ih =>
    intro n hn hm
    rw [List.replicate_succ, stormLoop, if_pos hn]
    simp only [if_true]
    by_cases hn1 : n + 1 ≤ limit
    · exact ih (n + 1) hn1 (by omega)
    · have hcap : limit < n + 1 := by omega
      rw [stormLoop_gt limit _ (n + 1) hcap]
      omega

/-- C7 counterexample: with target `limit = 950` (inside the drawn range
[950, 2050]) and valid candidates throughout, the loop
`while num_storms <= limit` keeps 951 storms, not the drawn 950. -/
theorem storm_count_off_by_one_cex :
    stormLoop 950 (List.replicate 951 true) 0 = 951 ∧ (951 : ℕ) ≠ 950 :=
  ⟨stormLoop_replicate_true 950 951 0 (by omega) (by omega), by omega⟩

/-- C7 amended: the target count is drawn from [950, 2050] and degenerate
candidates are discarded without counting (a `false` candidate leaves the kept
count unchanged), but generation stops when the number of kept valid events
reaches `limit + 1` — exactly one more than the drawn target. -/
theorem storm_generation_stops_at_target_plus_one :
    (∀ (limit : ℕ) (cands : List Bool) (n : ℕ), n ≤ limit →
      limit + 1 - n ≤ cands.countP id →
      stormLoop limit cands n = limit + 1) ∧
    (∀ (limit : ℕ) (rest : List Bool) (n : ℕ), n ≤ limit →
      stormLoop limit (false :: rest) n = stormLoop limit rest n) := by
  constructor
  · intro limit cands
    induction cands with
    | nil =>
      intro n hn hc
      exfalso
      simp only [List.countP_nil, Nat.le_zero] at hc
      omega
    | cons c rest ih =>
      intro n hn hc
      rw [stormLoop, if_pos hn]
      cases c with
      | false =>
        simp only [Bool.false_eq_true, if_false]
        refine ih n hn ?_
        simpa [List.countP_cons, id] using hc
      | true =>
        simp only [if_true]
        by_cases hn1 : n + 1 ≤ limit
        · refine ih (n + 1) hn1 ?_
          have hc2 : limit + 1 - n ≤ rest.countP id + 1 := by
            simpa [List.countP_cons, id] using hc
          omega
        · have hcap : limit < n + 1 := by omega
          rw [stormLoop_gt limit rest (n + 1) hcap]
          omega
  · intro limit rest n hn
    rw [stormLoop, if_pos hn]
    simp

theorem storm_generation_stops_at_target_plus_one_witness :
    stormLoop 1 [true, true] 0 = 1 + 1 ∧
    stormLoop 1 [false, true, true] 0 = stormLoop 1 [true, true] 0 :=
  ⟨storm_generation_stops_at_target_plus_one.1 1 [true, true] 0 (by decide) (by decide),
   storm_generation_stops_at_target_plus_one.2 1 [true, true] 0 (by decide)⟩

/-! ### C8: the LocalCsvWriter file contract (and the missing header) -/

theorem filesGet_cons (p : String × CsvFile) (rest : List (String × CsvFile)) (path : String) :
    filesGet (p :: rest) path = if p.1 == path then some p.2 else filesGet rest path := by
  by_cases hb : (p.1 == path) = true <;> simp [filesGet, List.find?_cons, hb]

theorem writeLine_cons (p : String × CsvFile) (rest : List (String × CsvFile))
    (path : String) (r : CsvRow) :
    writeLine (p :: rest) path r
      = (if p.1 == path
          then (p.1, ⟨p.2.fieldnames, p.2.lines ++ [rowLine p.2.fieldnames r]⟩)
          else p) :: writeLine rest path r := rfl

theorem filesGet_writeLine (path : String) (r : CsvRow) :
    ∀ fs : List (String × CsvFile),
      filesGet (writeLine fs path r) path
        = (filesGet fs path).map
            (fun f => ⟨f.fieldnames, f.lines ++ [rowLine f.fieldnames r]⟩) := by
  intro fs
  induction fs with
  | nil => rfl
  | cons p rest ih =>
    rw [writeLine_cons, filesGet_cons p rest path]
    by_cases hb : (p.1 == path) = true
    · rw [if_pos hb, if_pos hb, filesGet_cons]
      simp [hb]
    · rw [if_neg hb, if_neg hb, filesGet_cons, if_neg hb]
      exact ih

theorem filesGet_append_right (fs2 : List (String × CsvFile)) (path : String) :
    ∀ fs1, filesGet fs1 path = none → filesGet (fs1 ++ fs2) path = filesGet fs2 path := by
  intro fs1
  induction fs1 with
  | nil => intro _; rfl
  | cons p rest ih =>
    intro h
    rw [filesGet_cons] at h
    rw [List.cons_append, filesGet_cons]
    by_cases hb : (p.1 == path) = true
    · rw [if_pos hb] at h; exact absurd h (by simp)
    · rw [if_neg hb] at h ⊢
      exact ih h

theorem filesGet_getWriter_none (fs : List (String × CsvFile)) (path : String)
    (fieldnames : List String) (h : filesGet fs path = none) :
    filesGet (getWriter fs path fieldnames) path = some ⟨fieldnames, []⟩ := by
  rw [getWriter, h]
  rw [filesGet_append_right _ path fs h]
  simp [filesGet, List.find?]

theorem filesGet_getWriter_some (fs : List (String × CsvFile)) (path : String)
    (fieldnames : List String) (f : CsvFile) (h : filesGet fs path = some f) :
    getWriter fs path fieldnames = fs := by
  rw [getWriter, h]

theorem write_fold_existing (path : String) (rows : List CsvRow) :
    ∀ (fs : List (String × CsvFile)) (fn : List String) (ls : List (List String)),
      filesGet fs path = some ⟨fn, ls⟩ →
      filesGet (rows.foldl (fun acc r => writeLine (getWriter acc path (rowKeys r)) path r) fs)
          path
        = some ⟨fn, ls ++ rows.map (rowLine fn)⟩ := by
  induction rows with
  | nil => intro fs fn ls h; simpa using h
  | cons r rest ih =>
    intro fs fn ls h
    rw [List.foldl_cons]
    have h1 : filesGet (writeLine (getWriter fs path (rowKeys r)) path r) path
        = some ⟨fn, ls ++ [rowLine fn r]⟩ := by
      rw [filesGet_getWriter_some fs path (rowKeys r) ⟨fn, ls⟩ h, filesGet_writeLine, h]
      rfl
    have h2 := ih _ fn (ls ++ [rowLine fn r]) h1
    rw [h2]
    simp

/-- C8 counterexample: on the very first `write_rows` for an output kind, the
opened file's content is exactly the one data line — no header row listing the
column names is ever written (`csv.DictWriter` only writes a header from
`writeheader()`, which `LocalCsvWriter` never calls). -/
theorem csv_no_header_cex :
    filesGet (write_rows freshCsvState "losses" [[("a", "1")]]).file_writers
        (format_filepath "files/output" "hail" "losses")
      = some ⟨["a"], [["1"]]⟩ ∧
    ([["1"]] : List (List String)).head? ≠ some ["a"] := by
  constructor
  · rfl
  · decide

/-- C8 amended: each output kind is written to exactly one file named
`{dir}/{storm_type}_{output_kind}.csv` (for a dir without a trailing slash);
the file is opened on the first write for that kind with fieldnames taken from
the first row's keys and is kept open (fieldnames persist, later writes only
append); but NO header row is written — after any writes the file holds
exactly the data lines, one per row, each laid out in fieldname order. -/
theorem csv_writer_contract :
    (∀ dir storm name : String, strEndsWith dir "/" = false →
      format_filepath dir storm name = dir ++ "/" ++ storm ++ "_" ++ name ++ ".csv") ∧
    (∀ (s : CsvWriterState) (name : String) (fn : List String) (ls : List (List String))
        (rows : List CsvRow),
      filesGet s.file_writers (format_filepath s.output_dir s.storm_type name) = some ⟨fn, ls⟩ →
      filesGet (write_rows s name rows).file_writers
          (format_filepath s.output_dir s.storm_type name)
        = some ⟨fn, ls ++ rows.map (rowLine fn)⟩) ∧
    (∀ (s : CsvWriterState) (name : String) (r : CsvRow) (rest : List CsvRow),
      filesGet s.file_writers (format_filepath s.output_dir s.storm_type name) = none →
      filesGet (write_rows s name (r :: rest)).file_writers
          (format_filepath s.output_dir s.storm_type name)
        = some ⟨rowKeys r, (r :: rest).map (rowLine (rowKeys r))⟩) := by
  refine ⟨?_, ?_, ?_⟩
  · intro dir storm name h
    simp [format_filepath, h]
  · intro s name fn ls rows h
    exact write_fold_existing (format_filepath s.output_dir s.storm_type name) rows
      s.file_writers fn ls h
  · intro s name r rest h
    simp only [write_rows, List.foldl_cons]
    have h1 : filesGet
        (writeLine (getWriter s.file_writers (format_filepath s.output_dir s.storm_type name)
          (rowKeys r)) (format_filepath s.output_dir s.storm_type name) r)
        (format_filepath s.output_dir s.storm_type name)
        = some ⟨rowKeys r, [rowLine (rowKeys r) r]⟩ := by
      rw [filesGet_writeLine,
        filesGet_getWriter_none s.file_writers _ (rowKeys r) h]
      rfl
    have h2 := write_fold_existing (format_filepath s.output_dir s.storm_type name) rest
      _ (rowKeys r) [rowLine (rowKeys r) r] h1
    rw [h2]
    simp

theorem csv_writer_contract_witness :
    format_filepath "files/output" "hail" "losses" = "files/output/hail_losses.csv" ∧
    filesGet (write_rows freshCsvState "losses" [[("a", "1")], [("a", "2")]]).file_writers
        (format_filepath "files/output" "hail" "losses")
      = some ⟨["a"], [["1"], ["2"]]⟩ :=
  ⟨(csv_writer_contract.1 "files/output" "hail" "losses" (by decide)).trans (by decide),
   (csv_writer_contract.2.2 freshCsvState "losses" [("a", "1")] [[("a", "2")]]
      (by decide)).trans (by decide)⟩

/-! ### C9: the writer-construction helpers always raise -/

/-- C9 counterexample: `setup_bigquery_writer` called with a falsy `project_id`
raises the plain `Exception('--project_id is REQUIRED ...')` — not a
`TypeError` — so the claim that every call raises `TypeError` regardless of
arguments is false. -/
theorem setup_writers_typeerror_cex :
    setup_bigquery_writer none "simulations_v2" = .error .projectIdRequired ∧
    SetupErr.projectIdRequired ≠ SetupErr.typeError :=
  ⟨rfl, by decide⟩

/-- C9 amended: every call to the writer-construction helpers raises before
any simulation work: `setup_csv_writer` always raises `TypeError` (the
`LocalCsvWriter` call never supplies the required `storm_type`), and
`setup_bigquery_writer` raises `TypeError` for every truthy `project_id` (same
missing `storm_type` in the `BigqueryRowWriter` call) but the plain
required-project-id `Exception` when `project_id` is falsy. -/
theorem setup_writers_always_raise :
    (∀ (dir : String) (ov : Bool), setup_csv_writer dir ov = .error .typeError) ∧
    (∀ (pid : Option String) (ds : String), pyTruthy pid = true →
      setup_bigquery_writer pid ds = .error .typeError) ∧
    (∀ (pid : Option String) (ds : String), pyTruthy pid = false →
      setup_bigquery_writer pid ds = .error .projectIdRequired) := by
  refine ⟨fun dir ov => rfl, ?_, ?_⟩
  · intro pid ds h
    rw [setup_bigquery_writer, if_pos h]
    rfl
  · intro pid ds h
    rw [setup_bigquery_writer, if_neg (by simp [h])]

theorem setup_writers_always_raise_witness :
    setup_csv_writer "files/output" false = .error .typeError ∧
    setup_bigquery_writer (some "my-project") "simulations_v2" = .error .typeError ∧
    setup_bigquery_writer none "simulations_v2" = .error .projectIdRequired :=
  ⟨setup_writers_always_raise.1 "files/output" false,
   setup_writers_always_raise.2.1 (some "my-project") "simulations_v2" (by decide),
   setup_writers_always_raise.2.2 none "simulations_v2" rfl⟩

/-! ### C10: the total-level premium row goes to the exposures output -/

theorem mem_ite_singleton {α : Type} {c : Prop} [Decidable c] {x em : α}
    (hm : em ∈ (if c then [x] else [])) : em = x := by
  split at hm
  · simpa using hm
  · simp at hm

theorem expPremLevel_geo_type (premItems : List (String × ℚ)) (k : String) :
    ∀ items em, em ∈ expPremLevel premItems k items → em.geo_type = k := by
  intro items
  induction items with
  | nil => intro em hm; simp [expPremLevel] at hm
  | cons it rest ih =>
    obtain ⟨geography, total⟩ := it
    intro em hm
    rw [expPremLevel] at hm
    rcases List.mem_append.mp hm with hm1 | hm2
    · rcases List.mem_append.mp hm1 with hm3 | hm3
      · rw [mem_ite_singleton hm3]
      · rw [mem_ite_singleton hm3]
    · exact ih em hm2

theorem expPremLevel_filter_total (premItems : List (String × ℚ)) (k : String)
    (items : List (String × ℚ)) (hk : (k == "total") = false) :
    (expPremLevel premItems k items).filter (fun em => em.geo_type == "total") = [] := by
  rw [List.filter_eq_nil_iff]
  intro em hm
  rw [expPremLevel_geo_type premItems k items em hm]
  simp only [hk, Bool.false_eq_true, not_false_eq_true]

/-- C10: in the geo-type (v2) schema path, `premium_row['total']` is assigned
the EXPOSURE dictionary's total (never the premium dictionary's), every
total-level emission goes to the `exposures` output kind (none to `premiums`),
and when the exposure total is nonzero the exposures output receives exactly
two total rows carrying that same exposure value. -/
theorem premium_total_row_swallowed (expD premD : AssocGeo) :
    (runExpPremV2 expD premD).1 = expD.total ∧
    (∀ em ∈ (runExpPremV2 expD premD).2, em.geo_type = "total" → em.kind = OUTPUT_EXPOSURES) ∧
    (expD.total ≠ 0 →
      (runExpPremV2 expD premD).2.filter (fun em => em.geo_type == "total")
        = [⟨OUTPUT_EXPOSURES, "total", "total", expD.total⟩,
           ⟨OUTPUT_EXPOSURES, "total", "total", expD.total⟩]) := by
  refine ⟨rfl, ?_, ?_⟩
  · intro em hm htot
    simp only [runExpPremV2, expPremTotalBranch, List.append_assoc, List.mem_append] at hm
    rcases hm with hm | hm | hm | hm | hm
    · rw [mem_ite_singleton hm]
    · rw [mem_ite_singleton hm]
    · have := expPremLevel_geo_type premD.state "state" expD.state em hm
      rw [htot] at this
      exact absurd this (by decide)
    · have := expPremLevel_geo_type premD.county "county" expD.county em hm
      rw [htot] at this
      exact absurd this (by decide)
    · have := expPremLevel_geo_type premD.zip "zip" expD.zip em hm
      rw [htot] at this
      exact absurd this (by decide)
  · intro h
    simp only [runExpPremV2, expPremTotalBranch, if_pos h, List.filter_append]
    rw [expPremLevel_filter_total premD.state "state" expD.state (by decide),
      expPremLevel_filter_total premD.county "county" expD.county (by decide),
      expPremLevel_filter_total premD.zip "zip" expD.zip (by decide)]
    simp

theorem premium_total_row_swallowed_witness :
    (runExpPremV2 ⟨5, [("AR", 3)], [], []⟩ ⟨7, [("AR", 2)], [], []⟩).2.filter
        (fun em => em.geo_type == "total")
      = [⟨OUTPUT_EXPOSURES, "total", "total", 5⟩,
         ⟨OUTPUT_EXPOSURES, "total", "total", 5⟩] :=
  (premium_total_row_swallowed ⟨5, [("AR", 3)], [], []⟩ ⟨7, [("AR", 2)], [], []⟩).2.2
    (by norm_num)

end Sim
